import Mathlib

/-!
Verification of the codegame repository: shallow embedding of the frontend
API modules, the default snake AI script, and the match-simulation engine
described by the specification, together with theorems settling the
specification claims.
-/

/-! ## Frontend API embedding (src/frontend/src/api) -/

/-- An agent record as declared in src/frontend/src/api/agents.ts. -/
structure Agent where
  id : Nat
  user_id : Nat
  game_id : Nat
  name : String
  code : String
  created_at : String
  updated_at : String
deriving DecidableEq, Repr

/-- A user record as declared in src/frontend/src/api/auth.ts. -/
structure User where
  id : Nat
  username : String
  admin : Bool
deriving DecidableEq, Repr

/-- A server response as observed by the frontend fetch calls: the `ok`
flag, the HTTP status, and the already-parsed JSON body. -/
structure ApiResponse (α : Type) where
  ok : Bool
  status : Nat
  body : α
deriving DecidableEq, Repr

/-- Embedding of `fetchAgents` from src/frontend/src/api/agents.ts: on a
non-ok response with status 401 it returns the empty list, on any other
non-ok response it throws "Failed to fetch agents", and on an ok response
it returns the parsed body. -/
def fetchAgents (r : ApiResponse (List Agent)) : Except String (List Agent) :=
  if !r.ok then
    if r.status = 401 then .ok [] else .error "Failed to fetch agents"
  else
    .ok r.body

/-- Embedding of `login` from src/frontend/src/api/auth.ts: on a non-ok
response with status 404 it throws "Invalid username or password", on any
other non-ok response it throws "Login failed", and on an ok response it
returns the parsed user. -/
def login (r : ApiResponse User) : Except String User :=
  if !r.ok then
    if r.status = 404 then .error "Invalid username or password"
    else .error "Login failed"
  else
    .ok r.body

/-! ## Default snake AI embedding (src/games/snake/assets/default_ai.lua) -/

/-- A Lua `{x, y}` position table. -/
structure LuaVec2 where
  x : Int
  y : Int
deriving DecidableEq, Repr

/-- The Lua state table passed to `think` each tick: `state.snake` (array
of positions, index 1 = head), `state.food`, `state.direction`,
`state.grid_size`, `state.score`. -/
structure LuaSnakeState where
  snake : List LuaVec2
  food : LuaVec2
  direction : String
  grid_size : Nat
  score : Nat
deriving DecidableEq, Repr

/-- Embedding of the `think` function of default_ai.lua. Indexing an empty
`state.snake` would fail in Lua, so the empty case yields `none`; otherwise
the function chases the food while refusing to reverse, falling back to the
current direction. -/
def think (state : LuaSnakeState) : Option String :=
  match state.snake with
  | [] => none
  | head :: _ =>
    let food := state.food
    if food.x > head.x && state.direction != "west" then some "east"
    else if food.x < head.x && state.direction != "east" then some "west"
    else if food.y > head.y && state.direction != "south" then some "north"
    else if food.y < head.y && state.direction != "north" then some "south"
    else some state.direction

/-- The exact reverse of a direction string, used to state the
no-self-reversal property of the default AI. -/
def luaReverse (d : String) : String :=
  if d = "north" then "south"
  else if d = "south" then "north"
  else if d = "east" then "west"
  else if d = "west" then "east"
  else d

/-- The four direction strings of the grid-chase script contract. -/
def snakeDirections : List String := ["north", "south", "east", "west"]

/-! ## Grid-chase engine, modelled from the spec

The Rust/Bevy game runtimes and match services are not present in the
repository snapshot (only the frontend, migrations, the default Lua AI and
the build script are), so the engine below is modelled from the
specification text, sections 3 to 4.6. -/

/-- A grid cell position. -/
structure Pos where
  x : Int
  y : Int
deriving DecidableEq, Repr

instance : Inhabited Pos := ⟨⟨0, 0⟩⟩

/-- Componentwise addition of positions. -/
def Pos.add (p q : Pos) : Pos := ⟨p.x + q.x, p.y + q.y⟩

/-- Modelled from the spec: the grid-chase Action vocabulary, the closed
enum of the four headings. -/
inductive Heading
  | north
  | south
  | east
  | west
deriving DecidableEq, Fintype, Repr

/-- The exact reverse of a heading. -/
def Heading.reverse : Heading → Heading
  | .north => .south
  | .south => .north
  | .east => .west
  | .west => .east

/-- The unit vector of a heading; north increases `y`, matching the
default AI (it answers "north" when the food has larger `y`). -/
def Heading.unitVec : Heading → Pos
  | .north => ⟨0, 1⟩
  | .south => ⟨0, -1⟩
  | .east => ⟨1, 0⟩
  | .west => ⟨-1, 0⟩

/-- Coercion of a loosely-typed script return value into the grid-chase
Action vocabulary; anything outside the four direction strings fails. -/
def parseSnakeAction (s : String) : Option Heading :=
  if s = "north" then some .north
  else if s = "south" then some .south
  else if s = "east" then some .east
  else if s = "west" then some .west
  else none

/-- Modelled from the spec: the fault taxonomy attached to a tick for a
participant. -/
inductive Fault
  | loadError
  | runtimeError
  | timeoutError
  | invalidAction
deriving DecidableEq, Repr

/-- Modelled from the spec: the read-only view of authoritative state
exposed to a grid-chase script for one tick, with the field names of the
Lua contract of default_ai.lua: own body cells head first, goal cell,
current heading, grid dimension, current score. -/
structure TickSnapshot where
  snake : List Pos
  food : Pos
  direction : Heading
  grid_size : Nat
  score : Nat
deriving DecidableEq, Repr

/-- The behaviour of a loaded script: its decision entry point, taking the
snapshot as sole input and producing a loosely-typed return value
(`none` models a runtime error inside the script). -/
abbrev ScriptFn := TickSnapshot → Option String

/-- Modelled from the spec: an AgentScript together with the abstract
behaviour its source denotes once loaded; `hasEntryPoint` records whether
the required entry point exists and is callable. -/
structure AgentSource where
  source : String
  hasEntryPoint : Bool
  fn : ScriptFn

/-- Modelled from the spec: `load` validates that the required entry point
exists and is callable, returning `LoadError` otherwise. -/
def load (s : AgentSource) : Except Fault ScriptFn :=
  if s.hasEntryPoint then .ok s.fn else .error .loadError

/-- The outcome of one Script Host invocation: an Action or a Fault. -/
inductive InvokeResult
  | action (h : Heading)
  | fault (f : Fault)
deriving DecidableEq, Repr

/-- Modelled from the spec: `invoke` executes the entry point on the
snapshot; a script error is a runtime fault and a return value outside
the Action vocabulary is `InvalidAction`. -/
def invoke (fn : ScriptFn) (snap : TickSnapshot) : InvokeResult :=
  match fn snap with
  | none => .fault .runtimeError
  | some s =>
    match parseSnakeAction s with
    | some h => .action h
    | none => .fault .invalidAction

/-- Per-agent authoritative state of the grid-chase rules engine: occupied
cells head first, current heading, alive flag, score. -/
structure AgentState where
  body : List Pos
  heading : Heading
  alive : Bool
  score : Nat
deriving DecidableEq, Repr

/-- The head cell of an agent. -/
def headPos (a : AgentState) : Pos := a.body.headI

/-- Authoritative state of one grid-chase match: the agents, the single
goal cell and the grid dimension. -/
structure GridChaseState where
  agents : List AgentState
  goal : Pos
  gridSize : Nat
deriving DecidableEq, Repr

/-- Cells occupied by living agents. -/
def occupiedCells (agents : List AgentState) : List Pos :=
  (agents.filter (·.alive)).flatMap (·.body)

/-- Modelled from the spec: a requested heading that is the exact reverse
of the current heading is ignored and the current heading is kept. -/
def resolveHeading (current requested : Heading) : Heading :=
  if requested = current.reverse then current else requested

/-- The outcome of one agent's move within a tick: the updated agent, the
applied heading, the computed new head, and whether the goal was eaten. -/
structure StepOutcome where
  agent : AgentState
  applied : Heading
  newHead : Pos
  ateGoal : Bool
deriving DecidableEq, Repr

/-- Modelled from the spec, section 4.2 steps 1 to 6: resolve the heading,
shift the head one unit, check walls, check collision against occupied
cells except the vacating tail, then either grow on the goal or advance
normally. `others` are the cells occupied by the other participants. -/
def stepAgent (n : Nat) (goal : Pos) (others : List Pos) (a : AgentState)
    (requested : Heading) : StepOutcome :=
  let applied := resolveHeading a.heading requested
  let newHead := (headPos a).add applied.unitVec
  if !a.alive then ⟨a, applied, newHead, false⟩
  else
    let inside : Bool :=
      decide (0 ≤ newHead.x) && decide (newHead.x < (n : Int)) &&
      decide (0 ≤ newHead.y) && decide (newHead.y < (n : Int))
    let growing : Bool := decide (newHead = goal)
    let ownBlocked := if growing then a.body else a.body.dropLast
    let collision : Bool := decide (newHead ∈ ownBlocked) || decide (newHead ∈ others)
    if !inside || collision then
      ⟨{ a with heading := applied, alive := false }, applied, newHead, false⟩
    else if growing then
      ⟨{ a with body := newHead :: a.body, heading := applied, score := a.score + 1 },
        applied, newHead, true⟩
    else
      ⟨{ a with body := newHead :: a.body.dropLast, heading := applied }, applied, newHead, false⟩

/-- Modelled from the spec: the match's seeded deterministic random
generator, a linear congruential step on the seed. -/
def lcgNext (seed : Nat) : Nat := (seed * 1103515245 + 12345) % 2 ^ 31

/-- All cells of the `n` by `n` grid. -/
def allCells (n : Nat) : List Pos :=
  (List.range n).flatMap fun x => (List.range n).map fun y => ⟨(x : Int), (y : Int)⟩

/-- The currently free cells of the grid: every cell not occupied. -/
def freeCells (n : Nat) (occupied : List Pos) : List Pos :=
  (allCells n).filter fun c => decide (c ∉ occupied)

/-- Modelled from the spec: a new goal cell chosen among the currently
free cells by the seeded deterministic random generator; `none` when no
cell is free. -/
def placeGoal (seed n : Nat) (occupied : List Pos) : Option Pos :=
  let fc := freeCells n occupied
  if fc.isEmpty then none else fc.get? (seed % fc.length)

/-- Modelled from the spec: the read-only snapshot for one agent is
rebuilt fresh each tick from the authoritative state. -/
def buildSnapshot (st : GridChaseState) (a : AgentState) : TickSnapshot :=
  ⟨a.body, st.goal, a.heading, st.gridSize, a.score⟩

/-- Invoke the Script Host for each participant sequentially, in fixed
registration order, on snapshots built from the current state. -/
def invokeAll (scripts : List ScriptFn) (st : GridChaseState) : List InvokeResult :=
  List.zipWith (fun fn a => invoke fn (buildSnapshot st a)) scripts st.agents

/-- Modelled from the spec: a Fault is converted to a neutral no-op
action — for grid-chase, keeping the current heading. -/
def requestOf (a : AgentState) (r : InvokeResult) : Heading :=
  match r with
  | .action h => h
  | .fault _ => a.heading

/-- Cells occupied by living agents other than participant `i`, used for
collision arbitration of participant `i`. -/
def occupiedExcept (agents : List AgentState) (i : Nat) : List Pos :=
  occupiedCells ((agents.enum.filter fun p => p.1 ≠ i).map (·.2))

/-- Modelled from the spec: the grid-chase transition function — apply
every participant's resolved move as a batch, then replace the goal via
the seeded generator if it was eaten, returning the next state and the
advanced seed. -/
def gridTransition (st : GridChaseState) (requests : List Heading) (seed : Nat) :
    GridChaseState × Nat :=
  let outcomes := st.agents.enum.map fun p =>
    stepAgent st.gridSize st.goal (occupiedExcept st.agents p.1) p.2
      (requests.getD p.1 p.2.heading)
  let agents' := outcomes.map (·.agent)
  if outcomes.any (·.ateGoal) then
    match placeGoal seed st.gridSize (occupiedCells agents') with
    | some g => (⟨agents', g, st.gridSize⟩, lcgNext seed)
    | none => (⟨agents', st.goal, st.gridSize⟩, lcgNext seed)
  else
    (⟨agents', st.goal, st.gridSize⟩, seed)

/-- Modelled from the spec: the match configuration — grid dimension,
max-tick bound and deterministic seed (the per-invocation budget is not
observable in this embedding). -/
structure MatchConfig where
  gridSize : Nat
  maxTicks : Nat
  seed : Nat
deriving DecidableEq, Repr

/-- The Simulation Loop's running state: the authoritative grid state,
the current seed of the generator, and the tick index. -/
structure EngineState where
  grid : GridChaseState
  seed : Nat
  tick : Nat
deriving DecidableEq, Repr

/-- Modelled from the spec: one per-tick replay frame — tick index,
snapshot before, the collected invocation results, snapshot after. -/
structure ReplayFrame where
  tick : Nat
  before : GridChaseState
  actions : List InvokeResult
  after : GridChaseState
deriving DecidableEq, Repr

/-- Modelled from the spec: a match is terminal iff an agent is dead or
the tick index reached the max-tick bound. -/
def isTerminal (cfg : MatchConfig) (s : EngineState) : Bool :=
  decide (cfg.maxTicks ≤ s.tick) || s.grid.agents.any fun a => !a.alive

/-- Modelled from the spec: one iteration of the Simulation Loop — invoke
every script on fresh snapshots, convert faults to no-op actions, run the
rules-engine transition, record a replay frame, advance the tick index. -/
def engineTick (scripts : List ScriptFn) (s : EngineState) : EngineState × ReplayFrame :=
  let results := invokeAll scripts s.grid
  let requests := List.zipWith requestOf s.grid.agents results
  let next := gridTransition s.grid requests s.seed
  (⟨next.1, next.2, s.tick + 1⟩, ⟨s.tick, s.grid, results, next.1⟩)

/-- Modelled from the spec: the initial authoritative state built from the
match configuration — two agents at deterministic positions facing each
other, goal chosen by the seeded generator. -/
def initGrid (cfg : MatchConfig) : GridChaseState :=
  let n := cfg.gridSize
  let a0 : AgentState := ⟨[⟨1, 1⟩], .east, true, 0⟩
  let a1 : AgentState := ⟨[⟨(n : Int) - 2, (n : Int) - 2⟩], .west, true, 0⟩
  let goal := (placeGoal cfg.seed n (occupiedCells [a0, a1])).getD ⟨0, 0⟩
  ⟨[a0, a1], goal, n⟩

/-- The initial Simulation Loop state for a configuration. -/
def initState (cfg : MatchConfig) : EngineState :=
  ⟨initGrid cfg, lcgNext cfg.seed, 0⟩

/-- Modelled from the spec: the Simulation Loop as a relation between a
starting state and the ReplayFrame sequence one run of the engine
produces from it, looping until the terminal condition holds. -/
inductive EngineRun (cfg : MatchConfig) (scripts : List ScriptFn) :
    EngineState → List ReplayFrame → Prop
  | terminal (s : EngineState) :
      isTerminal cfg s = true → EngineRun cfg scripts s []
  | step (s s' : EngineState) (f : ReplayFrame) (fs : List ReplayFrame) :
      isTerminal cfg s = false →
      engineTick scripts s = (s', f) →
      EngineRun cfg scripts s' fs →
      EngineRun cfg scripts s (f :: fs)

/-- Modelled from the spec: the executable Simulation Loop, iterating the
tick until terminal, with the max-tick bound as fuel. -/
def runLoop (cfg : MatchConfig) (scripts : List ScriptFn) :
    Nat → EngineState → List ReplayFrame × EngineState
  | 0, s => ([], s)
  | fuel + 1, s =>
    if isTerminal cfg s then ([], s)
    else
      let next := engineTick scripts s
      let rest := runLoop cfg scripts fuel next.1
      (next.2 :: rest.1, rest.2)

/-- Modelled from the spec: the reason a match reached its terminal
outcome. -/
inductive EndReason
  | loadFailure
  | agentDead
  | tickLimit
deriving DecidableEq, Repr

/-- Modelled from the spec: the terminal outcome — winner index or draw,
per-participant score (no score for a disqualified side), termination
reason, tick count, and the participants disqualified at load. -/
structure MatchResult where
  winner : Option Nat
  scores : List (Option Nat)
  reason : EndReason
  tickCount : Nat
  disqualified : List Nat
deriving DecidableEq, Repr

/-- True when loading produced a LoadError. -/
def loadFailed (l : Except Fault ScriptFn) : Bool :=
  match l with
  | .ok _ => false
  | .error _ => true

/-- Indices of the participants whose script failed to load. -/
def failedIndices (loads : List (Except Fault ScriptFn)) : List Nat :=
  (List.range loads.length).filter fun j => loadFailed (loads.getD j (.error .loadError))

/-- Modelled from the spec: the winner at the terminal state — the sole
surviving agent, or among survivors the unique one with the highest
score; equal outcomes give a draw. -/
def decideWinner (agents : List AgentState) : Option Nat :=
  let alive := agents.enum.filter fun p => p.2.alive
  let maxScore := (alive.map fun p => p.2.score).foldr max 0
  match alive.filter fun p => p.2.score = maxScore with
  | [p] => some p.1
  | _ => none

/-- Modelled from the spec: a whole match. Loading any script fails with
a LoadError: the match aborts before Running with that participant
disqualified, no winner score on that side, zero ticks and no frames.
Otherwise the Simulation Loop runs from the initial state to the
terminal state and the result is assembled from it. -/
def runMatch (cfg : MatchConfig) (sources : List AgentSource) :
    MatchResult × List ReplayFrame :=
  let loads := sources.map load
  if loads.any loadFailed then
    (⟨none,
      loads.map fun l => if loadFailed l then none else some 0,
      .loadFailure, 0, failedIndices loads⟩, [])
  else
    let scripts := loads.filterMap fun l => match l with | .ok fn => some fn | .error _ => none
    let res := runLoop cfg scripts cfg.maxTicks (initState cfg)
    let sEnd := res.2
    (⟨decideWinner sEnd.grid.agents,
      sEnd.grid.agents.map fun a => some a.score,
      (if sEnd.grid.agents.any fun a => !a.alive then .agentDead else .tickLimit),
      sEnd.tick, []⟩, res.1)

/-! ## Arena-duel action vocabulary and the in-app API documentation
(src/unnamed/part_002, `gameApiDocs`) -/

/-- Modelled from the spec: the arena-duel Action vocabulary, the closed
enum of the four robot commands. -/
inductive RobotAction
  | accelerate
  | brake
  | turnLeft
  | turnRight
deriving DecidableEq, Fintype, Repr

/-- One entry of the in-app API documentation table. -/
structure ApiFunctionDoc where
  name : String
  description : String
  exampleStr : Option String
deriving DecidableEq, Repr

/-- One game's in-app API documentation. -/
structure GameApiDoc where
  title : String
  description : String
  functions : List ApiFunctionDoc
deriving DecidableEq, Repr

/-- The `gameApiDocs.robotsumo` entry of src/unnamed/part_002. -/
def robotsumoDoc : GameApiDoc :=
  ⟨"Robot Sumo API",
   "Control your robot in a sumo-style battle. Push your opponent out of the ring to win!",
   [⟨"move_forward()", "Move the robot forward", some "move_forward()"⟩,
    ⟨"move_backward()", "Move the robot backward", some "move_backward()"⟩,
    ⟨"turn_left()", "Rotate the robot left", some "turn_left()"⟩,
    ⟨"turn_right()", "Rotate the robot right", some "turn_right()"⟩,
    ⟨"get_position()", "Get your robot\x27s current x, y position",
      some "local x, y = get_position()"⟩,
    ⟨"get_opponent_position()", "Get the opponent\x27s x, y position",
      some "local ox, oy = get_opponent_position()"⟩,
    ⟨"get_distance_to_opponent()", "Get distance to opponent",
      some "local dist = get_distance_to_opponent()"⟩,
    ⟨"get_distance_to_edge()", "Get distance to nearest ring edge",
      some "local edge = get_distance_to_edge()"⟩]⟩

/-- The `gameApiDocs.snake` entry of src/unnamed/part_002. -/
def snakeDoc : GameApiDoc :=
  ⟨"Snake API",
   "Control your snake to eat food and grow longer. Avoid walls and your own tail!",
   [⟨"turn_left()", "Turn the snake left", some "turn_left()"⟩,
    ⟨"turn_right()", "Turn the snake right", some "turn_right()"⟩,
    ⟨"get_head_position()", "Get the snake head position",
      some "local x, y = get_head_position()"⟩,
    ⟨"get_food_position()", "Get the food position",
      some "local fx, fy = get_food_position()"⟩,
    ⟨"get_direction()", "Get current direction (up, down, left, right)",
      some "local dir = get_direction()"⟩,
    ⟨"get_length()", "Get current snake length", some "local len = get_length()"⟩]⟩

/-- A documented function is an action command when its name does not
start with the `get_` prefix of the read-only queries. -/
def isCommandDoc (f : ApiFunctionDoc) : Bool :=
  decide (f.name.data.take 4 ≠ "get_".data)

/-- Modelled from the spec: the correspondence between the imperative
host calls documented for arena-duel and the spec's arena-duel Action
vocabulary. -/
def robotCommandAction (fnName : String) : Option RobotAction :=
  if fnName = "move_forward()" then some .accelerate
  else if fnName = "move_backward()" then some .brake
  else if fnName = "turn_left()" then some .turnLeft
  else if fnName = "turn_right()" then some .turnRight
  else none

/-! ## Helper lemmas -/

lemma reverse_ne (h : Heading) : h.reverse ≠ h := by cases h <;> simp [Heading.reverse]

lemma resolveHeading_ne_reverse (cur req : Heading) :
    resolveHeading cur req ≠ cur.reverse := by
  revert cur req; decide

lemma resolveHeading_self (h : Heading) : resolveHeading h h = h := by
  unfold resolveHeading; split_ifs <;> rfl

lemma resolveHeading_rev (h : Heading) : resolveHeading h h.reverse = h := by
  unfold resolveHeading; simp

lemma placeGoal_not_mem (seed n : Nat) (occ : List Pos) (g : Pos)
    (h : placeGoal seed n occ = some g) : g ∉ occ := by
  simp only [placeGoal] at h
  split_ifs at h
  have hg : g ∈ freeCells n occ := List.get?_mem h
  have := List.of_mem_filter hg
  simpa using this

lemma think_cons (head : LuaVec2) (rest : List LuaVec2) (food : LuaVec2)
    (dir : String) (gs sc : Nat) :
    think ⟨head :: rest, food, dir, gs, sc⟩ =
      (if food.x > head.x && dir != "west" then some "east"
       else if food.x < head.x && dir != "east" then some "west"
       else if food.y > head.y && dir != "south" then some "north"
       else if food.y < head.y && dir != "north" then some "south"
       else some dir) := rfl

/-! ## Claim theorems -/

/-- C9: for every server response, fetchAgents returns the empty list on a
non-ok response with status 401, throws "Failed to fetch agents" on every
other non-ok status, and returns the parsed agent list unchanged on an ok
response. -/
theorem fetchAgents_spec (r : ApiResponse (List Agent)) :
    (r.ok = false → r.status = 401 → fetchAgents r = .ok [])
    ∧ (r.ok = false → r.status ≠ 401 → fetchAgents r = .error "Failed to fetch agents")
    ∧ (r.ok = true → fetchAgents r = .ok r.body) := by
  obtain ⟨ok, status, body⟩ := r
  cases ok <;> by_cases h : status = 401 <;> simp_all [fetchAgents]

/-- Witness for C9 at concrete responses. -/
theorem fetchAgents_spec_witness :
    fetchAgents ⟨false, 401, []⟩ = .ok []
    ∧ fetchAgents ⟨false, 500, []⟩ = .error "Failed to fetch agents"
    ∧ fetchAgents ⟨true, 200, []⟩ = .ok [] :=
  ⟨(fetchAgents_spec ⟨false, 401, []⟩).1 rfl rfl,
   (fetchAgents_spec ⟨false, 500, []⟩).2.1 rfl (by decide),
   (fetchAgents_spec ⟨true, 200, []⟩).2.2 rfl⟩

/-- C10: login throws "Invalid username or password" exactly when the
response is not ok with status 404, throws "Login failed" on every other
non-ok response, and returns the parsed user only on an ok response. -/
theorem login_spec (r : ApiResponse User) :
    (login r = .error "Invalid username or password" ↔ r.ok = false ∧ r.status = 404)
    ∧ (r.ok = false → r.status ≠ 404 → login r = .error "Login failed")
    ∧ (r.ok = true → login r = .ok r.body) := by
  obtain ⟨ok, status, body⟩ := r
  cases ok <;> by_cases h : status = 404 <;> simp_all [login]

/-- Witness for C10 at concrete responses. -/
theorem login_spec_witness :
    (login ⟨false, 404, ⟨1, "u", false⟩⟩ = .error "Invalid username or password"
      ↔ false = false ∧ 404 = 404)
    ∧ login ⟨false, 500, ⟨1, "u", false⟩⟩ = .error "Login failed"
    ∧ login ⟨true, 200, ⟨1, "u", false⟩⟩ = .ok ⟨1, "u", false⟩ :=
  ⟨(login_spec ⟨false, 404, ⟨1, "u", false⟩⟩).1,
   (login_spec ⟨false, 500, ⟨1, "u", false⟩⟩).2.1 rfl (by decide),
   (login_spec ⟨true, 200, ⟨1, "u", false⟩⟩).2.2 rfl⟩

/-- C2: in the grid-chase rules engine, the applied heading is the resolved
request, it is never the exact reverse of the previous heading, the new
head is the old head shifted by the unit vector of the applied heading,
and a request for the exact reverse is treated identically to keeping the
current heading (ignored, not fatal). -/
theorem stepAgent_move (n : Nat) (goal : Pos) (others : List Pos)
    (a : AgentState) (requested : Heading) :
    (stepAgent n goal others a requested).applied = resolveHeading a.heading requested
    ∧ (stepAgent n goal others a requested).applied ≠ a.heading.reverse
    ∧ (stepAgent n goal others a requested).newHead
        = (headPos a).add (stepAgent n goal others a requested).applied.unitVec
    ∧ stepAgent n goal others a a.heading.reverse = stepAgent n goal others a a.heading := by
  have happ : (stepAgent n goal others a requested).applied
      = resolveHeading a.heading requested := by
    simp only [stepAgent]; split_ifs <;> rfl
  have hhead : (stepAgent n goal others a requested).newHead
      = (headPos a).add (resolveHeading a.heading requested).unitVec := by
    simp only [stepAgent]; split_ifs <;> rfl
  refine ⟨happ, ?_, ?_, ?_⟩
  · rw [happ]; exact resolveHeading_ne_reverse a.heading requested
  · rw [hhead, happ]
  · simp only [stepAgent, resolveHeading_rev, resolveHeading_self]

/-- C3: when an agent's move reaches the goal, its body length grows by
exactly 1 and its score by exactly 1, and a replacement goal produced by
the seeded generator is never on an occupied cell. -/
theorem stepAgent_goal (n : Nat) (goal : Pos) (others : List Pos)
    (a : AgentState) (requested : Heading) (seed : Nat) (occ : List Pos) (g : Pos)
    (hate : (stepAgent n goal others a requested).ateGoal = true)
    (hplace : placeGoal seed n occ = some g) :
    (stepAgent n goal others a requested).agent.body.length = a.body.length + 1
    ∧ (stepAgent n goal others a requested).agent.score = a.score + 1
    ∧ g ∉ occ := by
  refine ⟨?_, ?_, placeGoal_not_mem seed n occ g hplace⟩ <;>
  · revert hate
    simp only [stepAgent]
    split_ifs <;> simp

/-- Witness for C3: a one-cell agent eating the goal on a 4 by 4 grid. -/
theorem stepAgent_goal_witness :
    (stepAgent 4 ⟨2, 1⟩ [] ⟨[⟨1, 1⟩], .east, true, 0⟩ .east).agent.body.length
        = ([(⟨1, 1⟩ : Pos)] : List Pos).length + 1
    ∧ (stepAgent 4 ⟨2, 1⟩ [] ⟨[⟨1, 1⟩], .east, true, 0⟩ .east).agent.score = 0 + 1
    ∧ (⟨0, 0⟩ : Pos) ∉ ([⟨2, 1⟩, ⟨1, 1⟩] : List Pos) :=
  stepAgent_goal 4 ⟨2, 1⟩ [] ⟨[⟨1, 1⟩], .east, true, 0⟩ .east 0 [⟨2, 1⟩, ⟨1, 1⟩] ⟨0, 0⟩
    (by decide) (by decide)

/-- C4: the grid-chase Action vocabulary is the closed enum of the four
headings — every Action the Script Host can hand to the rules engine is
one of them, any string the coercion accepts is one of the four direction
strings, and any other string is rejected rather than becoming an
Action. -/
theorem snakeAction_closed :
    (∀ (fn : ScriptFn) (snap : TickSnapshot) (h : Heading),
        invoke fn snap = .action h → h ∈ [Heading.north, .south, .east, .west])
    ∧ (∀ s h, parseSnakeAction s = some h → s ∈ snakeDirections)
    ∧ (∀ s, s ∉ snakeDirections → parseSnakeAction s = none) := by
  refine ⟨fun fn snap h _ => ?_, fun s h hp => ?_, fun s hs => ?_⟩
  · cases h <;> simp
  · unfold parseSnakeAction at hp
    split_ifs at hp <;> simp [snakeDirections, *]
  · unfold parseSnakeAction
    split_ifs with h1 h2 h3 h4 <;>
      first
        | rfl
        | (exfalso; apply hs; simp [snakeDirections, *])

/-- Witness for C4: the Script Host accepts "north" and rejects "up". -/
theorem snakeAction_closed_witness :
    Heading.north ∈ [Heading.north, .south, .east, .west]
    ∧ "north" ∈ snakeDirections
    ∧ parseSnakeAction "up" = none :=
  ⟨snakeAction_closed.1 (fun _ => some "north") ⟨[], ⟨0, 0⟩, .north, 32, 0⟩ .north (by decide),
   snakeAction_closed.2.1 "north" .north (by decide),
   snakeAction_closed.2.2 "up" (by decide)⟩

/-- C5: the arena-duel Action vocabulary is the closed enum of the four
robot commands, and the four action commands documented in the in-app API
table correspond exactly, in order, to accelerate, brake, turn-left and
turn-right. -/
theorem robotAction_closed :
    (∀ a : RobotAction, a ∈ [RobotAction.accelerate, .brake, .turnLeft, .turnRight])
    ∧ (robotsumoDoc.functions.filter isCommandDoc).map (fun f => robotCommandAction f.name)
        = [some .accelerate, some .brake, some .turnLeft, some .turnRight] := by
  constructor
  · intro a; cases a <;> simp
  · decide

/-- C6: the grid-chase TickSnapshot is built fresh from the authoritative
state and carries exactly the agent's body cells head first, the goal
cell, the current heading, the grid dimension and the current score. -/
theorem buildSnapshot_fields (st : GridChaseState) (a : AgentState) :
    (buildSnapshot st a).snake = a.body
    ∧ (buildSnapshot st a).food = st.goal
    ∧ (buildSnapshot st a).direction = a.heading
    ∧ (buildSnapshot st a).grid_size = st.gridSize
    ∧ (buildSnapshot st a).score = a.score :=
  ⟨rfl, rfl, rfl, rfl, rfl⟩

/-- C8: for every state whose direction is one of the four direction
strings and whose snake is non-empty, the default snake AI returns one of
the four direction strings and never the exact reverse of the current
direction. -/
theorem think_no_reversal (st : LuaSnakeState)
    (hdir : st.direction ∈ snakeDirections) (hsnake : st.snake ≠ []) :
    ∃ d, think st = some d ∧ d ∈ snakeDirections ∧ d ≠ luaReverse st.direction := by
  obtain ⟨snake, food, dir, gs, sc⟩ := st
  match snake, hsnake with
  | head :: rest, _ =>
    simp only [snakeDirections, List.mem_cons, List.not_mem_nil, or_false] at hdir
    rcases hdir with rfl | rfl | rfl | rfl <;>
      · rw [think_cons]
        dsimp only
        split_ifs <;>
          first
            | exact ⟨_, rfl, by decide, by decide⟩
            | simp_all

/-- Witness for C8: a snake at the origin heading north with the food to
its east turns east. -/
theorem think_no_reversal_witness :
    ∃ d, think ⟨[⟨0, 0⟩], ⟨1, 0⟩, "north", 32, 0⟩ = some d ∧ d ∈ snakeDirections ∧
      d ≠ luaReverse "north" :=
  think_no_reversal ⟨[⟨0, 0⟩], ⟨1, 0⟩, "north", 32, 0⟩ (by decide) (by decide)

lemma runMatch_loadFailure (cfg : MatchConfig) (sources : List AgentSource)
    (hany : (sources.map load).any loadFailed = true) :
    runMatch cfg sources =
      (⟨none, (sources.map load).map fun l => if loadFailed l then none else some 0,
        .loadFailure, 0, failedIndices (sources.map load)⟩, []) := by
  simp [runMatch, hany]

/-- C7: if any participant's script lacks its entry point, the Script Host
returns LoadError, the match runs zero ticks and records no frames, its
termination reason is the load failure, that participant is disqualified,
and no winner score is recorded for that side. -/
theorem loadError_aborts (cfg : MatchConfig) (sources : List AgentSource) (i : Nat)
    (src : AgentSource) (hsrc : sources[i]? = some src)
    (hentry : src.hasEntryPoint = false) :
    load src = .error .loadError
    ∧ (runMatch cfg sources).2 = []
    ∧ (runMatch cfg sources).1.tickCount = 0
    ∧ (runMatch cfg sources).1.reason = .loadFailure
    ∧ i ∈ (runMatch cfg sources).1.disqualified
    ∧ (runMatch cfg sources).1.scores[i]? = some none := by
  have hload : load src = .error .loadError := by
    simp [load, hentry]
  have hget : (sources.map load)[i]? = some (Except.error Fault.loadError) := by
    rw [List.getElem?_map, hsrc]
    simp [hload]
  have hmem : (Except.error Fault.loadError : Except Fault ScriptFn) ∈ sources.map load := by
    have hq : (sources.map load).get? i = some (Except.error Fault.loadError) := by
      rw [List.get?_eq_getElem?]; exact hget
    exact List.get?_mem hq
  have hany : (sources.map load).any loadFailed = true := by
    rw [List.any_eq_true]
    exact ⟨Except.error Fault.loadError, hmem, rfl⟩
  have hlen : i < (sources.map load).length := by
    rcases List.getElem?_eq_some.mp hget with ⟨h, _⟩
    exact h
  rw [runMatch_loadFailure cfg sources hany]
  refine ⟨hload, rfl, rfl, rfl, ?_, ?_⟩
  · simp only [failedIndices, List.mem_filter, List.mem_range]
    refine ⟨hlen, ?_⟩
    rw [List.getD_eq_getElem?_getD, hget]
    rfl
  · rw [List.getElem?_map, hget]
    rfl

/-- Witness for C7: a single script with a missing entry point. -/
theorem loadError_aborts_witness :
    load (⟨"", false, fun _ => none⟩ : AgentSource) = .error .loadError
    ∧ (runMatch ⟨4, 3, 0⟩ [⟨"", false, fun _ => none⟩]).2 = []
    ∧ (runMatch ⟨4, 3, 0⟩ [⟨"", false, fun _ => none⟩]).1.tickCount = 0
    ∧ (runMatch ⟨4, 3, 0⟩ [⟨"", false, fun _ => none⟩]).1.reason = .loadFailure
    ∧ 0 ∈ (runMatch ⟨4, 3, 0⟩ [⟨"", false, fun _ => none⟩]).1.disqualified
    ∧ (runMatch ⟨4, 3, 0⟩ [⟨"", false, fun _ => none⟩]).1.scores[0]? = some none :=
  loadError_aborts ⟨4, 3, 0⟩ [⟨"", false, fun _ => none⟩] 0 ⟨"", false, fun _ => none⟩
    rfl rfl

lemma engineRun_unique {cfg : MatchConfig} {scripts : List ScriptFn} :
    ∀ {s : EngineState} {fs fs' : List ReplayFrame},
      EngineRun cfg scripts s fs → EngineRun cfg scripts s fs' → fs = fs' := by
  intro s fs fs' h1
  induction h1 generalizing fs' with
  | terminal s ht =>
    intro h2
    cases h2 with
    | terminal _ _ => rfl
    | step _ _ _ _ hnt _ _ => rw [ht] at hnt; cases hnt
  | step s s' f fsr hnt htick _ ih =>
    intro h2
    cases h2 with
    | terminal _ ht => rw [ht] at hnt; cases hnt
    | step _ s'' f' fs'' _ htick' hrun' =>
      have he : (s', f) = (s'', f') := htick.symm.trans htick'
      have hs : s' = s'' := congrArg Prod.fst he
      have hf : f = f' := congrArg Prod.snd he
      subst hs
      rw [hf, ih hrun']

/-- C1: the engine is deterministic — two independent runs from the same
agent scripts, seed and match configuration produce identical ReplayFrame
sequences. -/
theorem engine_deterministic (cfg : MatchConfig) (scripts : List ScriptFn)
    (fs fs' : List ReplayFrame)
    (h1 : EngineRun cfg scripts (initState cfg) fs)
    (h2 : EngineRun cfg scripts (initState cfg) fs') : fs = fs' :=
  engineRun_unique h1 h2

/-- Witness for C1: two runs of a zero-tick match produce the same frame
sequence. -/
theorem engine_deterministic_witness : ([] : List ReplayFrame) = [] :=
  engine_deterministic ⟨4, 0, 7⟩ [] [] []
    (.terminal _ (by decide)) (.terminal _ (by decide))
